import Mathlib

/-!
Shallow embedding of the OTA firmware-update controller in
`src/Device/FirmwareOTA.ino` (MXChip IoT DevKit firmware OTA sample).

The sketch is single-threaded: each poll tick calls `CheckNewFirmware()`,
which consults external collaborators (the IoT Hub metadata fetch, the
version comparator, the firmware downloader, the applier, `time(NULL)`)
and mutates one global, `enableOTA`.  We model one tick as a pure function
from the current `enableOTA` value and an `Env` (the results the external
collaborators would return during this tick) to the new `enableOTA` value
together with a trace of the externally visible events the tick performs,
in order: metadata fetch, status reports, MQTT client close / re-open,
the download call, the apply call, and the final reboot.
-/

namespace FirmwareOTA

/-- The running firmware version: `static const char* currentFirmwareVersion = "1.0.0"`. -/
def currentFirmwareVersion : String := "1.0.0"

/-- Status tag `OTA_STATUS_CURRENT` from the DevKit OTA utility header (opaque constant). -/
def OTA_STATUS_CURRENT : String := "Current"

/-- Status tag `OTA_STATUS_DOWNLOADING` from the DevKit OTA utility header (opaque constant). -/
def OTA_STATUS_DOWNLOADING : String := "Downloading"

/-- Status tag `OTA_STATUS_APPLYING` from the DevKit OTA utility header (opaque constant). -/
def OTA_STATUS_APPLYING : String := "Applying"

/-- Status tag `OTA_STATUS_ERROR` from the DevKit OTA utility header (opaque constant). -/
def OTA_STATUS_ERROR : String := "Error"

/-- The `FW_INFO` metadata record returned by `IoTHubClient_GetLatestFwInfo()`.
Nullable `char*` fields become `Option String`; `fwSize` is a C `int`. -/
structure FW_INFO where
  fwVersion : Option String
  fwPackageURI : Option String
  fwPackageCheckValue : Option String
  fwSize : Int
deriving DecidableEq

/-- The six arguments of `ReportOTAStatus(...)` (each a nullable `char*`):
the fields of the status record submitted to the hub. -/
structure StatusRecord where
  currentFwVersion : Option String
  pendingFwVersion : Option String
  fwUpdateStatus : Option String
  fwUpdateSubstatus : Option String
  lastFwUpdateStartTime : Option String
  lastFwUpdateEndTime : Option String
deriving DecidableEq

/-- Builds the status record passed to `ReportOTAStatus`. -/
def ReportOTAStatus (cur pend status sub startT endT : Option String) : StatusRecord :=
  ⟨cur, pend, status, sub, startT, endT⟩

/-- The status record reported by `OTAUpdateFailed(failedMsg)`.  In the sketch the
pending version is `fwInfo ? fwInfo->fwVersion : ""`; at every call site inside
`CheckNewFirmware` the global `fwInfo` and its `fwVersion` are non-null, so the
pending version is the candidate version.  `OTAUpdateFailed` also clears the
`enableOTA` global; `CheckNewFirmware` below performs that state change. -/
def OTAUpdateFailed (pendingFwVersion : String) (failedMsg : String) : StatusRecord :=
  ReportOTAStatus (some currentFirmwareVersion) (some pendingFwVersion)
    (some OTA_STATUS_ERROR) (some failedMsg) (some "") (some "")

/-- Externally visible events of one `CheckNewFirmware()` tick, in program order. -/
inductive Event where
  | fetchFwInfo
  | report (r : StatusRecord)
  | mqttClose
  | mqttInit
  | download (uri : String)
  | applyFirmware (size : Int) (checksum : Nat)
  | reboot
deriving DecidableEq

/-- Results the external collaborators return during one tick:
the metadata fetch, `IoTHubClient_FwVersionCompare(candidate, current)`,
`time(NULL)` at the two call sites, the `int` returned by
`OTADownloadFirmware` together with the value it stores through its
`uint16_t*` out-parameter, and the `int` returned by `OTAApplyNewFirmware`. -/
structure Env where
  fwInfo : Option FW_INFO
  fwVersionCompare : Int
  time1 : Nat
  downloadReturn : Int
  downloadChecksum : Nat
  applyReturn : Int
  time2 : Nat
deriving DecidableEq

/-- The https scheme check on line 109:
`!(strlen(uri) < 6 || strncmp("https:", uri, 6) != 0)`. -/
def isHttpsURI (uri : String) : Bool :=
  decide (6 ≤ uri.length) && (uri.take 6 == "https:")

/-- Value of one hexadecimal digit, as accepted by `strtoul` with base 16. -/
def hexDigitVal (c : Char) : Option Nat :=
  if '0' ≤ c ∧ c ≤ '9' then some (c.toNat - '0'.toNat)
  else if 'a' ≤ c ∧ c ≤ 'f' then some (c.toNat - 'a'.toNat + 10)
  else if 'A' ≤ c ∧ c ≤ 'F' then some (c.toNat - 'A'.toNat + 10)
  else none

/-- White-space characters skipped by `strtoul` (C `isspace`). -/
def isStrtoulSpace (c : Char) : Bool :=
  c == ' ' || c == '\t' || c == '\n' || c == '\x0b' || c == '\x0c' || c == '\r'

/-- Accumulate leading hexadecimal digits into an unbounded natural number;
stops at the first non-digit. -/
def hexAccum : List Char → Nat → Nat
  | c :: cs, acc =>
    match hexDigitVal c with
    | some d => hexAccum cs (16 * acc + d)
    | none => acc
  | [], acc => acc

/-- `ULONG_MAX` on the 32-bit ARM target (`unsigned long` is 32 bits). -/
def ULONG_MAX : Nat := 2 ^ 32 - 1

/-- `strtoul(s, NULL, 16)` on the 32-bit target: skip white space, optional
sign, optional `0x`/`0X` prefix (only when a hex digit follows), accumulate
hex digits; out-of-range values saturate to `ULONG_MAX`, and a leading minus
negates the value in unsigned (mod `2^32`) arithmetic. -/
def strtoul16 (s : String) : Nat :=
  let cs0 := s.data.dropWhile isStrtoulSpace
  let signed : Bool × List Char :=
    match cs0 with
    | '-' :: rest => (true, rest)
    | '+' :: rest => (false, rest)
    | _ => (false, cs0)
  let cs1 :=
    match signed.2 with
    | '0' :: x :: d :: rest =>
      if (x == 'x' || x == 'X') && (hexDigitVal d).isSome then d :: rest
      else '0' :: x :: d :: rest
    | l => l
  let raw := hexAccum cs1 0
  if ULONG_MAX < raw then ULONG_MAX
  else if signed.1 then (2 ^ 32 - raw) % 2 ^ 32
  else raw

/-- Zero-pad a two-digit field (`%m`, `%d`, `%H`, `%M`, `%S` of `strftime`). -/
def pad2 (n : Nat) : String :=
  if n < 10 then "0" ++ toString n else toString n

/-- Civil date (year, month, day) from days since 1970-01-01 in the proleptic
Gregorian calendar, as `gmtime` computes for non-negative `time_t`. -/
def civilFromDays (z0 : Nat) : Nat × Nat × Nat :=
  let z := z0 + 719468
  let era := z / 146097
  let doe := z % 146097
  let yoe := (doe - doe / 1460 + doe / 36524 - doe / 146096) / 365
  let y := yoe + era * 400
  let doy := doe - (365 * yoe + yoe / 4 - yoe / 100)
  let mp := (5 * doy + 2) / 153
  let d := doy - (153 * mp + 2) / 5 + 1
  let m := if mp < 10 then mp + 3 else mp - 9
  (if m ≤ 2 then y + 1 else y, m, d)

/-- `strftime(buf, 30, "%Y-%m-%dT%H:%M:%S.0000000Z", gmtime(&t))` for a
non-negative `time_t` value `t` (seconds since the epoch). -/
def formatUtcTime (t : Nat) : String :=
  let days := t / 86400
  let secs := t % 86400
  let ymd := civilFromDays days
  toString ymd.1 ++ "-" ++ pad2 ymd.2.1 ++ "-" ++ pad2 ymd.2.2 ++ "T" ++
    pad2 (secs / 3600) ++ ":" ++ pad2 (secs % 3600 / 60) ++ ":" ++ pad2 (secs % 60) ++
    ".0000000Z"

/-- Result of one tick: the new value of the `enableOTA` global and the trace
of externally visible events, in program order. -/
structure TickResult where
  enableOTA : Bool
  trace : List Event
deriving DecidableEq

/-- Lines 123-216 of `CheckNewFirmware()`: the tail executed once a strictly
newer, well-formed, https candidate has been accepted.  Reports `Downloading`
with `startTime = now`, closes the MQTT client, downloads, re-opens the
client; classifies the returned size (`0`/`-1` download failure, `-2` device
error, size mismatch); CRC-checks the `uint16_t` checksum against
`strtoul(fwPackageCheckValue, NULL, 16)` when a check value is present;
applies; reports `Applying` with both timestamps; reboots. -/
def downloadAndApply (enableOTA : Bool) (env : Env) (fi : FW_INFO)
    (fwVersion fwPackageURI : String) : TickResult :=
  let startTimeStr := formatUtcTime env.time1
  let checksum := env.downloadChecksum % 65536
  let fwSize := env.downloadReturn
  let pre : List Event :=
    [.fetchFwInfo,
     .report (ReportOTAStatus (some currentFirmwareVersion) (some fwVersion)
       (some OTA_STATUS_DOWNLOADING) (some fwPackageURI) (some startTimeStr) (some "")),
     .mqttClose, .download fwPackageURI, .mqttInit]
  if fwSize = 0 ∨ fwSize = -1 then
    ⟨false, pre ++ [.report (OTAUpdateFailed fwVersion "DownloadFailed")]⟩
  else if fwSize = -2 then
    ⟨false, pre ++ [.report (OTAUpdateFailed fwVersion "DeviceError")]⟩
  else if fwSize ≠ fi.fwSize then
    ⟨false, pre ++ [.report (OTAUpdateFailed fwVersion "FileSizeNotMatch")]⟩
  else
    let verifyFailed : Bool :=
      match fi.fwPackageCheckValue with
      | some cv => !(checksum == strtoul16 cv)
      | none => false
    if verifyFailed then
      ⟨false, pre ++ [.report (OTAUpdateFailed fwVersion "VerifyFailed")]⟩
    else if env.applyReturn ≠ 0 then
      ⟨false, pre ++ [.applyFirmware fwSize checksum,
        .report (OTAUpdateFailed fwVersion "ApplyFirmwareFailed")]⟩
    else
      ⟨enableOTA, pre ++ [.applyFirmware fwSize checksum,
        .report (ReportOTAStatus (some currentFirmwareVersion) (some fwVersion)
          (some OTA_STATUS_APPLYING) (some "") (some startTimeStr)
          (some (formatUtcTime env.time2))),
        .reboot]⟩

/-- One call of `CheckNewFirmware()` (lines 85-216 of the sketch), as a pure
function of the current `enableOTA` value and the collaborator results.
Mirrors the source control flow branch by branch:
gate on `enableOTA`; fetch metadata; disable on missing version or package
URI; reject non-https URIs via `OTAUpdateFailed("URINotHTTPS")`; return
silently when the candidate version does not compare greater; otherwise run
the download/verify/apply tail `downloadAndApply`. -/
def CheckNewFirmware (enableOTA : Bool) (env : Env) : TickResult :=
  if !enableOTA then ⟨enableOTA, []⟩
  else
    match env.fwInfo with
    | none => ⟨enableOTA, [.fetchFwInfo]⟩
    | some fi =>
      match fi.fwVersion, fi.fwPackageURI with
      | some fwVersion, some fwPackageURI =>
        if !isHttpsURI fwPackageURI then
          ⟨false, [.fetchFwInfo, .report (OTAUpdateFailed fwVersion "URINotHTTPS")]⟩
        else if env.fwVersionCompare ≤ 0 then
          ⟨enableOTA, [.fetchFwInfo]⟩
        else
          downloadAndApply enableOTA env fi fwVersion fwPackageURI
      | _, _ => ⟨false, [.fetchFwInfo]⟩

/-- The poll loop (`loop()`): `CheckNewFirmware` once per tick, threading the
`enableOTA` global through the given sequence of tick environments.  Returns
the final `enableOTA` value and the per-tick traces. -/
def runTicks (enableOTA : Bool) : List Env → Bool × List (List Event)
  | [] => (enableOTA, [])
  | e :: es =>
    let r := CheckNewFirmware enableOTA e
    let rest := runTicks r.enableOTA es
    (rest.1, r.trace :: rest.2)

/-- The event is a status report whose `fwUpdateStatus` is the error tag. -/
def isErrorReport : Event → Bool
  | .report r => r.fwUpdateStatus == some OTA_STATUS_ERROR
  | _ => false

/-- The event is an error report carrying the given substatus. -/
def isFailureReport (sub : String) : Event → Bool
  | .report r =>
    r.fwUpdateStatus == some OTA_STATUS_ERROR && r.fwUpdateSubstatus == some sub
  | _ => false

/-- The event is any status report. -/
def isReportEvent : Event → Bool
  | .report _ => true
  | _ => false

/-- The event is a report whose `fwUpdateStatus` is the applying tag. -/
def isApplyingReport : Event → Bool
  | .report r => r.fwUpdateStatus == some OTA_STATUS_APPLYING
  | _ => false

/-- The event is the `OTADownloadFirmware` call. -/
def isDownloadEvent : Event → Bool
  | .download _ => true
  | _ => false

/-- The event is the `OTAApplyNewFirmware` call. -/
def isApplyEvent : Event → Bool
  | .applyFirmware _ _ => true
  | _ => false

/-- The event is the `SystemReboot` call. -/
def isRebootEvent : Event → Bool
  | .reboot => true
  | _ => false

/-- The tick reached the download call. -/
def reachedDownload (r : TickResult) : Bool :=
  r.trace.any isDownloadEvent

/-- The tick passed the download-outcome classification (lines 146-163):
the download was performed and none of the three download-outcome error
reports (`DownloadFailed`, `DeviceError`, `FileSizeNotMatch`) was emitted,
so control advanced to the CRC-verification stage. -/
def advancedToVerify (r : TickResult) : Bool :=
  reachedDownload r &&
    !(r.trace.any (isFailureReport "DownloadFailed") ||
      r.trace.any (isFailureReport "DeviceError") ||
      r.trace.any (isFailureReport "FileSizeNotMatch"))

/-- Candidate with a well-formed version and a non-https package URI. -/
def fiBadUri : FW_INFO := ⟨some "1.1.0", some "http://x", none, 100⟩

/-- Tick environment delivering `fiBadUri`. -/
def envBadUri : Env := ⟨some fiBadUri, 1, 0, 0, 0, 0, 0⟩

/-- Candidate with an https URI whose version is older than the current one. -/
def fiStale : FW_INFO := ⟨some "0.9.0", some "https://x", none, 100⟩

/-- Tick environment delivering `fiStale` with comparator result `-1`. -/
def envStale : Env := ⟨some fiStale, -1, 0, 0, 0, 0, 0⟩

/-- Candidate whose version is older than the current one and whose URI is not https. -/
def fiStaleHttp : FW_INFO := ⟨some "0.9.0", some "http://x", none, 100⟩

/-- Tick environment delivering `fiStaleHttp` with comparator result `-1`. -/
def envStaleHttp : Env := ⟨some fiStaleHttp, -1, 0, 0, 0, 0, 0⟩

/-- Well-formed https candidate of size 100 with hex check value `a5a5`. -/
def fiOK : FW_INFO := ⟨some "1.1.0", some "https://x", some "a5a5", 100⟩

/-- Tick environment in which every stage succeeds for `fiOK`. -/
def envOK : Env := ⟨some fiOK, 1, 0, 100, 0xa5a5, 0, 5⟩

/-- Well-formed https candidate whose advertised size is 0. -/
def fiZeroSize : FW_INFO := ⟨some "1.1.0", some "https://x", none, 0⟩

/-- Tick environment where the download also returns 0 bytes for `fiZeroSize`. -/
def envZeroSize : Env := ⟨some fiZeroSize, 1, 0, 0, 0, 0, 0⟩

/-- Well-formed https candidate whose check value `10000` parses to `0x10000 > 0xFFFF`. -/
def fiWideCheck : FW_INFO := ⟨some "1.1.0", some "https://x", some "10000", 100⟩

/-- Tick environment with a size-matching download for `fiWideCheck`. -/
def envWideCheck : Env := ⟨some fiWideCheck, 1, 0, 100, 0, 0, 0⟩

/-- Well-formed https candidate of size 120 with hex check value `a5a5`. -/
def fiSize120 : FW_INFO := ⟨some "1.1.0", some "https://x", some "a5a5", 120⟩

/-- Tick environment where the download returns 100 bytes against expected 120. -/
def envSizeMismatch : Env := ⟨some fiSize120, 1, 0, 100, 0, 0, 0⟩

/-- Tick environment with matching size but computed checksum 1 against `a5a5`. -/
def envCkMismatch : Env := ⟨some fiSize120, 1, 0, 120, 1, 0, 0⟩

/-- The `strftime` format `%Y-%m-%dT%H:%M:%S.0000000Z` never yields an empty string. -/
theorem formatUtcTime_ne_empty (t : Nat) : formatUtcTime t ≠ "" := by
  intro h
  have hl := congrArg String.length h
  simp [formatUtcTime, String.length_append] at hl
  exact absurd hl.2 (by decide)

/-- A tick that starts enabled and fetches a strictly newer, well-formed https
candidate runs the download/verify/apply tail. -/
theorem checkNewFirmware_eq_downloadAndApply (env : Env) (fi : FW_INFO) (v uri : String)
    (hfi : env.fwInfo = some fi) (hv : fi.fwVersion = some v)
    (hu : fi.fwPackageURI = some uri) (hhttps : isHttpsURI uri = true)
    (hcmp : 0 < env.fwVersionCompare) :
    CheckNewFirmware true env = downloadAndApply true env fi v uri := by
  have hc : ¬ env.fwVersionCompare ≤ 0 := by omega
  simp [CheckNewFirmware, hfi, hv, hu, hhttps, hc]

/-- C9: once `enableOTA` is false it stays false for the whole run, and every
subsequent tick returns immediately with an empty event trace: no metadata
fetch, no report, no download, no apply; moreover no single tick ever turns
`enableOTA` from false back to true. -/
theorem runTicks_disabled_forever (envs : List Env) :
    runTicks false envs = (false, envs.map fun _ => []) ∧
    ∀ (b : Bool) (env : Env), (CheckNewFirmware b env).enableOTA = true → b = true := by
  constructor
  · induction envs with
    | nil => rfl
    | cons e es ih => simp [runTicks, CheckNewFirmware, ih]
  · intro b env h
    cases b with
    | false => simp [CheckNewFirmware] at h
    | true => rfl

/-- Witness for C9 at a concrete one-tick run and a concrete enabled tick. -/
theorem runTicks_disabled_forever_witness :
    runTicks false [envOK] = (false, [[]]) ∧ true = true :=
  ⟨(runTicks_disabled_forever [envOK]).1,
   (runTicks_disabled_forever [envOK]).2 true envOK (by decide)⟩

/-- C4: a candidate with version and package URI present whose URI fails the
https check is rejected before any download: the tick emits the
`URINotHTTPS` error report and the trace contains no download and no apply
event. -/
theorem insecure_uri_rejected_before_download (env : Env) (fi : FW_INFO) (v uri : String)
    (hfi : env.fwInfo = some fi) (hv : fi.fwVersion = some v)
    (hu : fi.fwPackageURI = some uri) (hins : isHttpsURI uri = false) :
    CheckNewFirmware true env =
      ⟨false, [.fetchFwInfo, .report (OTAUpdateFailed v "URINotHTTPS")]⟩ ∧
    (CheckNewFirmware true env).trace.any (isFailureReport "URINotHTTPS") = true ∧
    (CheckNewFirmware true env).trace.any isDownloadEvent = false ∧
    (CheckNewFirmware true env).trace.any isApplyEvent = false := by
  have h1 : CheckNewFirmware true env =
      ⟨false, [.fetchFwInfo, .report (OTAUpdateFailed v "URINotHTTPS")]⟩ := by
    simp [CheckNewFirmware, hfi, hv, hu, hins]
  refine ⟨h1, ?_, ?_, ?_⟩ <;> rw [h1] <;>
    simp [isFailureReport, isDownloadEvent, isApplyEvent, OTAUpdateFailed, ReportOTAStatus]

/-- Witness for C4 at the concrete candidate `fiBadUri` (`http://x`). -/
theorem insecure_uri_rejected_before_download_witness :
    (CheckNewFirmware true envBadUri).trace.any (isFailureReport "URINotHTTPS") = true ∧
    (CheckNewFirmware true envBadUri).trace.any isDownloadEvent = false :=
  ⟨(insecure_uri_rejected_before_download envBadUri fiBadUri "1.1.0" "http://x"
      rfl rfl rfl (by decide)).2.1,
   (insecure_uri_rejected_before_download envBadUri fiBadUri "1.1.0" "http://x"
      rfl rfl rfl (by decide)).2.2.1⟩

/-- C3 counterexample: a candidate whose version compares not-greater but whose
URI is non-https (`fiStaleHttp`) is *not* rejected silently: the tick emits the
`URINotHTTPS` error report, because the https check precedes the version
comparison in `CheckNewFirmware`. -/
theorem stale_version_counterexample :
    envStaleHttp.fwVersionCompare ≤ 0 ∧
    (CheckNewFirmware true envStaleHttp).trace.any isErrorReport = true ∧
    (CheckNewFirmware true envStaleHttp).trace.any isDownloadEvent = false ∧
    (CheckNewFirmware true envStaleHttp).trace.any isApplyEvent = false := by
  decide

/-- C3 amended: a candidate whose package URI passes the https check and whose
version does not compare greater is rejected silently: `enableOTA` is
unchanged and the trace contains no report, no download and no apply. -/
theorem stale_version_silent_when_https (b : Bool) (env : Env) (fi : FW_INFO) (v uri : String)
    (hfi : env.fwInfo = some fi) (hv : fi.fwVersion = some v)
    (hu : fi.fwPackageURI = some uri) (hhttps : isHttpsURI uri = true)
    (hcmp : env.fwVersionCompare ≤ 0) :
    (CheckNewFirmware b env).enableOTA = b ∧
    (CheckNewFirmware b env).trace.any isReportEvent = false ∧
    (CheckNewFirmware b env).trace.any isDownloadEvent = false ∧
    (CheckNewFirmware b env).trace.any isApplyEvent = false := by
  cases b with
  | false => simp [CheckNewFirmware, isReportEvent, isDownloadEvent, isApplyEvent]
  | true =>
    have h1 : CheckNewFirmware true env = ⟨true, [.fetchFwInfo]⟩ := by
      simp [CheckNewFirmware, hfi, hv, hu, hhttps, hcmp]
    refine ⟨?_, ?_, ?_, ?_⟩ <;> rw [h1] <;>
      simp [isReportEvent, isDownloadEvent, isApplyEvent]

/-- Witness for the amended C3 at the concrete stale https candidate `fiStale`. -/
theorem stale_version_silent_when_https_witness :
    isHttpsURI "https://x" = true ∧ envStale.fwVersionCompare ≤ 0 ∧
    (CheckNewFirmware true envStale).trace.any isReportEvent = false :=
  ⟨by decide, by decide,
   (stale_version_silent_when_https true envStale fiStale "0.9.0" "https://x"
      rfl rfl rfl (by decide) (by decide)).2.1⟩

/-- C8: on a tick that reaches the download stage, the trace begins with the
metadata fetch, then the `Downloading` report stamped with the tick's UTC
time (a non-empty string), then the MQTT teardown, then the download call,
then the MQTT re-open — in exactly this order, before every later event
(in particular before any further report, whatever the download outcome). -/
theorem downloading_report_channel_lifecycle (env : Env) (fi : FW_INFO) (v uri : String)
    (hfi : env.fwInfo = some fi) (hv : fi.fwVersion = some v)
    (hu : fi.fwPackageURI = some uri) (hhttps : isHttpsURI uri = true)
    (hcmp : 0 < env.fwVersionCompare) :
    (∃ post, (CheckNewFirmware true env).trace =
        .fetchFwInfo ::
        .report (ReportOTAStatus (some currentFirmwareVersion) (some v)
          (some OTA_STATUS_DOWNLOADING) (some uri)
          (some (formatUtcTime env.time1)) (some "")) ::
        .mqttClose :: .download uri :: .mqttInit :: post) ∧
    formatUtcTime env.time1 ≠ "" := by
  refine ⟨?_, formatUtcTime_ne_empty _⟩
  rw [checkNewFirmware_eq_downloadAndApply env fi v uri hfi hv hu hhttps hcmp]
  simp only [downloadAndApply]
  split_ifs <;> exact ⟨_, rfl⟩

/-- C7: when every stage succeeds the tick's trace is exactly the metadata
fetch, the `Downloading` report, the MQTT teardown, the download, the MQTT
re-open, one apply call, one `Applying`-status report carrying the non-empty
`startTime` and `endTime` stamps, and one reboot — in this order; in
particular the apply call happens exactly once, the `Applying` report is
emitted exactly once and after the apply, and the reboot happens exactly
once, after that report. -/
theorem success_path_apply_report_reboot (env : Env) (fi : FW_INFO) (v uri : String)
    (hfi : env.fwInfo = some fi) (hv : fi.fwVersion = some v)
    (hu : fi.fwPackageURI = some uri) (hhttps : isHttpsURI uri = true)
    (hcmp : 0 < env.fwVersionCompare)
    (h0 : env.downloadReturn ≠ 0) (h1 : env.downloadReturn ≠ -1)
    (h2 : env.downloadReturn ≠ -2) (hsz : env.downloadReturn = fi.fwSize)
    (hck : ∀ cv, fi.fwPackageCheckValue = some cv →
      env.downloadChecksum % 65536 = strtoul16 cv)
    (happ : env.applyReturn = 0) :
    CheckNewFirmware true env = ⟨true,
      [.fetchFwInfo,
       .report (ReportOTAStatus (some currentFirmwareVersion) (some v)
         (some OTA_STATUS_DOWNLOADING) (some uri) (some (formatUtcTime env.time1)) (some "")),
       .mqttClose, .download uri, .mqttInit,
       .applyFirmware env.downloadReturn (env.downloadChecksum % 65536),
       .report (ReportOTAStatus (some currentFirmwareVersion) (some v)
         (some OTA_STATUS_APPLYING) (some "") (some (formatUtcTime env.time1))
         (some (formatUtcTime env.time2))),
       .reboot]⟩ ∧
    (CheckNewFirmware true env).trace.countP isApplyEvent = 1 ∧
    (CheckNewFirmware true env).trace.countP isApplyingReport = 1 ∧
    (CheckNewFirmware true env).trace.countP isRebootEvent = 1 ∧
    formatUtcTime env.time1 ≠ "" ∧ formatUtcTime env.time2 ≠ "" := by
  have hmain : CheckNewFirmware true env = ⟨true,
      [.fetchFwInfo,
       .report (ReportOTAStatus (some currentFirmwareVersion) (some v)
         (some OTA_STATUS_DOWNLOADING) (some uri) (some (formatUtcTime env.time1)) (some "")),
       .mqttClose, .download uri, .mqttInit,
       .applyFirmware env.downloadReturn (env.downloadChecksum % 65536),
       .report (ReportOTAStatus (some currentFirmwareVersion) (some v)
         (some OTA_STATUS_APPLYING) (some "") (some (formatUtcTime env.time1))
         (some (formatUtcTime env.time2))),
       .reboot]⟩ := by
    rw [checkNewFirmware_eq_downloadAndApply env fi v uri hfi hv hu hhttps hcmp]
    simp only [downloadAndApply]
    rw [if_neg (by omega), if_neg h2, if_neg (not_not_intro hsz)]
    cases hcv : fi.fwPackageCheckValue with
    | none => simp [happ, hsz]
    | some cv => simp [happ, hsz, hck cv hcv]
  refine ⟨hmain, ?_, ?_, ?_, formatUtcTime_ne_empty _, formatUtcTime_ne_empty _⟩ <;>
    rw [hmain] <;>
    simp [List.countP_cons, List.countP_nil, isApplyEvent, isApplyingReport, isRebootEvent,
      ReportOTAStatus, OTA_STATUS_DOWNLOADING, OTA_STATUS_APPLYING]

/-- Witness for C7 at the concrete all-stages-succeed environment `envOK`. -/
theorem success_path_apply_report_reboot_witness :
    (CheckNewFirmware true envOK).trace.countP isApplyEvent = 1 ∧
    (CheckNewFirmware true envOK).trace.countP isApplyingReport = 1 ∧
    (CheckNewFirmware true envOK).trace.countP isRebootEvent = 1 := by
  have h := success_path_apply_report_reboot envOK fiOK "1.1.0" "https://x"
    rfl rfl rfl (by decide) (by decide) (by decide) (by decide) (by decide) rfl
    (by
      intro cv hcv
      have hc : cv = "a5a5" := by simpa [fiOK] using hcv.symm
      subst hc
      decide)
    rfl
  exact ⟨h.2.1, h.2.2.1, h.2.2.2.1⟩

/-- Witness for C8 at the concrete environment `envOK`. -/
theorem downloading_report_channel_lifecycle_witness :
    ∃ post, (CheckNewFirmware true envOK).trace =
      .fetchFwInfo ::
      .report (ReportOTAStatus (some currentFirmwareVersion) (some "1.1.0")
        (some OTA_STATUS_DOWNLOADING) (some "https://x")
        (some (formatUtcTime envOK.time1)) (some "")) ::
      .mqttClose :: .download "https://x" :: .mqttInit :: post :=
  (downloading_report_channel_lifecycle envOK fiOK "1.1.0" "https://x"
      rfl rfl rfl (by decide) (by decide)).1

/-- C5 counterexample: when the advertised `fwSize` is the sentinel value 0 and
the download also returns 0, the returned byte count equals `expectedSize`,
yet the tick reports `DownloadFailed` and does not advance to verification —
so "advances exactly when `n` equals `expectedSize`" fails as stated. -/
theorem download_classification_counterexample :
    envZeroSize.downloadReturn = fiZeroSize.fwSize ∧
    (CheckNewFirmware true envZeroSize).trace.any (isFailureReport "DownloadFailed") = true ∧
    advancedToVerify (CheckNewFirmware true envZeroSize) = false ∧
    (CheckNewFirmware true envZeroSize).trace.any isApplyEvent = false := by
  decide

/-- C5 amended: on a tick that reaches the download stage, the returned byte
count `n` is classified in order — `n = 0` or `n = -1` reports
`DownloadFailed`; `n = -2` reports `DeviceError`; any other `n` different
from `fwSize` reports `FileSizeNotMatch`; and the tick advances to
verification exactly when `n` equals `fwSize` and `n` is none of the
sentinel values `0`, `-1`, `-2`. -/
theorem download_outcome_classification (env : Env) (fi : FW_INFO) (v uri : String)
    (hfi : env.fwInfo = some fi) (hv : fi.fwVersion = some v)
    (hu : fi.fwPackageURI = some uri) (hhttps : isHttpsURI uri = true)
    (hcmp : 0 < env.fwVersionCompare) :
    ((env.downloadReturn = 0 ∨ env.downloadReturn = -1) →
      (CheckNewFirmware true env).trace.any (isFailureReport "DownloadFailed") = true ∧
      advancedToVerify (CheckNewFirmware true env) = false) ∧
    (env.downloadReturn = -2 →
      (CheckNewFirmware true env).trace.any (isFailureReport "DeviceError") = true ∧
      advancedToVerify (CheckNewFirmware true env) = false) ∧
    (env.downloadReturn ≠ 0 → env.downloadReturn ≠ -1 → env.downloadReturn ≠ -2 →
      env.downloadReturn ≠ fi.fwSize →
      (CheckNewFirmware true env).trace.any (isFailureReport "FileSizeNotMatch") = true ∧
      advancedToVerify (CheckNewFirmware true env) = false) ∧
    (advancedToVerify (CheckNewFirmware true env) = true ↔
      (env.downloadReturn = fi.fwSize ∧ env.downloadReturn ≠ 0 ∧
       env.downloadReturn ≠ -1 ∧ env.downloadReturn ≠ -2)) := by
  rw [checkNewFirmware_eq_downloadAndApply env fi v uri hfi hv hu hhttps hcmp]
  simp only [downloadAndApply]
  by_cases hA : (env.downloadReturn = 0 ∨ env.downloadReturn = -1)
  · rw [if_pos hA]
    refine ⟨fun _ => ?_, fun hB => (by omega : False).elim,
      fun h0 h1 _ _ => (by omega : False).elim, ?_⟩
    · simp [advancedToVerify, reachedDownload, isFailureReport, isDownloadEvent,
        OTAUpdateFailed, ReportOTAStatus, OTA_STATUS_ERROR, OTA_STATUS_DOWNLOADING]
    · simp [advancedToVerify, reachedDownload, isFailureReport, isDownloadEvent,
        OTAUpdateFailed, ReportOTAStatus, OTA_STATUS_ERROR, OTA_STATUS_DOWNLOADING]
      omega
  · rw [if_neg hA]
    by_cases hB : env.downloadReturn = -2
    · rw [if_pos hB]
      refine ⟨fun hx => (by omega : False).elim, fun _ => ?_,
        fun h0 h1 h2 _ => (by omega : False).elim, ?_⟩
      · simp [advancedToVerify, reachedDownload, isFailureReport, isDownloadEvent,
          OTAUpdateFailed, ReportOTAStatus, OTA_STATUS_ERROR, OTA_STATUS_DOWNLOADING]
      · simp [advancedToVerify, reachedDownload, isFailureReport, isDownloadEvent,
          OTAUpdateFailed, ReportOTAStatus, OTA_STATUS_ERROR, OTA_STATUS_DOWNLOADING]
        omega
    · rw [if_neg hB]
      by_cases hS : env.downloadReturn = fi.fwSize
      · rw [if_neg (not_not_intro hS)]
        refine ⟨fun hx => (by omega : False).elim, fun hx => (by omega : False).elim,
          fun h0 h1 h2 hsm => absurd hS hsm, ?_⟩
        cases hcv : fi.fwPackageCheckValue with
        | none =>
          simp only [hcv]
          by_cases happ : env.applyReturn = 0
          · rw [if_neg (by simp), if_neg (not_not_intro happ)]
            simp [advancedToVerify, reachedDownload, isFailureReport, isDownloadEvent,
              ReportOTAStatus, OTA_STATUS_ERROR, OTA_STATUS_DOWNLOADING, OTA_STATUS_APPLYING]
            omega
          · rw [if_neg (by simp), if_pos happ]
            simp [advancedToVerify, reachedDownload, isFailureReport, isDownloadEvent,
              OTAUpdateFailed, ReportOTAStatus, OTA_STATUS_ERROR, OTA_STATUS_DOWNLOADING]
            omega
        | some cv =>
          simp only [hcv]
          by_cases hck : (env.downloadChecksum % 65536 == strtoul16 cv) = true
          · rw [if_neg (by simp [hck])]
            by_cases happ : env.applyReturn = 0
            · rw [if_neg (not_not_intro happ)]
              simp [advancedToVerify, reachedDownload, isFailureReport, isDownloadEvent,
                ReportOTAStatus, OTA_STATUS_ERROR, OTA_STATUS_DOWNLOADING, OTA_STATUS_APPLYING]
              omega
            · rw [if_pos happ]
              simp [advancedToVerify, reachedDownload, isFailureReport, isDownloadEvent,
                OTAUpdateFailed, ReportOTAStatus, OTA_STATUS_ERROR, OTA_STATUS_DOWNLOADING]
              omega
          · rw [if_pos (by simp [hck])]
            simp [advancedToVerify, reachedDownload, isFailureReport, isDownloadEvent,
              OTAUpdateFailed, ReportOTAStatus, OTA_STATUS_ERROR, OTA_STATUS_DOWNLOADING]
            omega
      · rw [if_pos hS]
        refine ⟨fun hx => (by omega : False).elim, fun hx => (by omega : False).elim,
          fun _ _ _ _ => ?_, ?_⟩
        · simp [advancedToVerify, reachedDownload, isFailureReport, isDownloadEvent,
            OTAUpdateFailed, ReportOTAStatus, OTA_STATUS_ERROR, OTA_STATUS_DOWNLOADING]
        · simp [advancedToVerify, reachedDownload, isFailureReport, isDownloadEvent,
            OTAUpdateFailed, ReportOTAStatus, OTA_STATUS_ERROR, OTA_STATUS_DOWNLOADING]
          omega

/-- Witness for the amended C5 at the concrete size-mismatch environment. -/
theorem download_outcome_classification_witness :
    (CheckNewFirmware true envSizeMismatch).trace.any (isFailureReport "FileSizeNotMatch") = true ∧
    advancedToVerify (CheckNewFirmware true envSizeMismatch) = false :=
  (download_outcome_classification envSizeMismatch fiSize120 "1.1.0" "https://x"
      rfl rfl rfl (by decide) (by decide)).2.2.1
    (by decide) (by decide) (by decide) (by decide)

/-- C6: on a tick whose download returns exactly `fwSize` (no sentinel), when
the candidate carries no check value verification is skipped and the tick
proceeds to the apply call with no `VerifyFailed` report; when a check value
is present and the computed 16-bit checksum differs from its parse the tick
reports `VerifyFailed` and never calls the applier; when it matches the tick
advances to the apply call. -/
theorem checksum_verification_policy (env : Env) (fi : FW_INFO) (v uri : String)
    (hfi : env.fwInfo = some fi) (hv : fi.fwVersion = some v)
    (hu : fi.fwPackageURI = some uri) (hhttps : isHttpsURI uri = true)
    (hcmp : 0 < env.fwVersionCompare)
    (h0 : env.downloadReturn ≠ 0) (h1 : env.downloadReturn ≠ -1)
    (h2 : env.downloadReturn ≠ -2) (hsz : env.downloadReturn = fi.fwSize) :
    (fi.fwPackageCheckValue = none →
      (CheckNewFirmware true env).trace.any isApplyEvent = true ∧
      (CheckNewFirmware true env).trace.any (isFailureReport "VerifyFailed") = false) ∧
    (∀ cv, fi.fwPackageCheckValue = some cv →
      env.downloadChecksum % 65536 ≠ strtoul16 cv →
      (CheckNewFirmware true env).trace.any (isFailureReport "VerifyFailed") = true ∧
      (CheckNewFirmware true env).trace.any isApplyEvent = false) ∧
    (∀ cv, fi.fwPackageCheckValue = some cv →
      env.downloadChecksum % 65536 = strtoul16 cv →
      (CheckNewFirmware true env).trace.any isApplyEvent = true) := by
  rw [checkNewFirmware_eq_downloadAndApply env fi v uri hfi hv hu hhttps hcmp]
  simp only [downloadAndApply]
  rw [if_neg (by omega), if_neg h2, if_neg (not_not_intro hsz)]
  refine ⟨fun hcv => ?_, fun cv hcv hne => ?_, fun cv hcv heq => ?_⟩
  · simp only [hcv]
    rw [if_neg (by simp)]
    by_cases happ : env.applyReturn = 0
    · rw [if_neg (not_not_intro happ)]
      simp [isApplyEvent, isFailureReport, ReportOTAStatus,
        OTA_STATUS_ERROR, OTA_STATUS_DOWNLOADING, OTA_STATUS_APPLYING]
    · rw [if_pos happ]
      simp [isApplyEvent, isFailureReport, OTAUpdateFailed, ReportOTAStatus,
        OTA_STATUS_ERROR, OTA_STATUS_DOWNLOADING]
  · simp only [hcv]
    rw [if_pos (by simp [hne])]
    simp [isApplyEvent, isFailureReport, OTAUpdateFailed, ReportOTAStatus,
      OTA_STATUS_ERROR, OTA_STATUS_DOWNLOADING]
  · simp only [hcv]
    rw [if_neg (by simp [heq])]
    by_cases happ : env.applyReturn = 0
    · rw [if_neg (not_not_intro happ)]
      simp [isApplyEvent]
    · rw [if_pos happ]
      simp [isApplyEvent]

/-- Witness for C6: `envOK` (matching checksum) reaches the apply call, and
`envCkMismatch` (computed 1 against `a5a5`) reports `VerifyFailed` with no
apply call. -/
theorem checksum_verification_policy_witness :
    (CheckNewFirmware true envOK).trace.any isApplyEvent = true ∧
    (CheckNewFirmware true envCkMismatch).trace.any (isFailureReport "VerifyFailed") = true ∧
    (CheckNewFirmware true envCkMismatch).trace.any isApplyEvent = false := by
  have hOK := (checksum_verification_policy envOK fiOK "1.1.0" "https://x"
    rfl rfl rfl (by decide) (by decide) (by decide) (by decide) (by decide) rfl).2.2
    "a5a5" rfl (by decide)
  have hBad := (checksum_verification_policy envCkMismatch fiSize120 "1.1.0" "https://x"
    rfl rfl rfl (by decide) (by decide) (by decide) (by decide) (by decide) rfl).2.1
    "a5a5" rfl (by decide)
  exact ⟨hOK, hBad.1, hBad.2⟩

/-- C10: the computed checksum lives in a `uint16_t` while the expected check
value is parsed by `strtoul(..., 16)` into an `unsigned long`; whenever the
parse exceeds `0xFFFF`, verification necessarily fails — regardless of the
downloaded bytes — and the tick reports `VerifyFailed` without calling the
applier. -/
theorem wide_checksum_always_fails (env : Env) (fi : FW_INFO) (v uri cv : String)
    (hfi : env.fwInfo = some fi) (hv : fi.fwVersion = some v)
    (hu : fi.fwPackageURI = some uri) (hhttps : isHttpsURI uri = true)
    (hcmp : 0 < env.fwVersionCompare)
    (h0 : env.downloadReturn ≠ 0) (h1 : env.downloadReturn ≠ -1)
    (h2 : env.downloadReturn ≠ -2) (hsz : env.downloadReturn = fi.fwSize)
    (hcv : fi.fwPackageCheckValue = some cv)
    (hwide : 0xFFFF < strtoul16 cv) :
    (CheckNewFirmware true env).trace.any (isFailureReport "VerifyFailed") = true ∧
    (CheckNewFirmware true env).trace.any isApplyEvent = false := by
  have hne : env.downloadChecksum % 65536 ≠ strtoul16 cv := by
    have hlt : env.downloadChecksum % 65536 < 65536 := Nat.mod_lt _ (by norm_num)
    omega
  rw [checkNewFirmware_eq_downloadAndApply env fi v uri hfi hv hu hhttps hcmp]
  simp only [downloadAndApply]
  rw [if_neg (by omega), if_neg h2, if_neg (not_not_intro hsz)]
  simp only [hcv]
  rw [if_pos (by simp [hne])]
  simp [isApplyEvent, isFailureReport, OTAUpdateFailed, ReportOTAStatus,
    OTA_STATUS_ERROR, OTA_STATUS_DOWNLOADING]

/-- Witness for C10 at the concrete check value `"10000"` (parses to `0x10000`). -/
theorem wide_checksum_always_fails_witness :
    0xFFFF < strtoul16 "10000" ∧
    (CheckNewFirmware true envWideCheck).trace.any (isFailureReport "VerifyFailed") = true ∧
    (CheckNewFirmware true envWideCheck).trace.any isApplyEvent = false := by
  have h := wide_checksum_always_fails envWideCheck fiWideCheck "1.1.0" "https://x" "10000"
    rfl rfl rfl (by decide) (by decide) (by decide) (by decide) (by decide) rfl rfl (by decide)
  exact ⟨by decide, h.1, h.2⟩

/-- C2: the applier is invoked only when the download returned exactly
`fwSize` bytes and the checksum check passed or was skipped; a size deviation
never reaches the applier and (when the download stage ran) is reported with
one of the three download substatuses; a checksum deviation after a
size-matching download is reported as `VerifyFailed` and never reaches the
applier. -/
theorem applier_guarded (b : Bool) (env : Env) (fi : FW_INFO)
    (hfi : env.fwInfo = some fi) :
    ((CheckNewFirmware b env).trace.any isApplyEvent = true →
      env.downloadReturn = fi.fwSize ∧
        ∀ cv, fi.fwPackageCheckValue = some cv →
          env.downloadChecksum % 65536 = strtoul16 cv) ∧
    (env.downloadReturn ≠ fi.fwSize →
      (CheckNewFirmware b env).trace.any isApplyEvent = false ∧
      ((CheckNewFirmware b env).trace.any isDownloadEvent = true →
        ((CheckNewFirmware b env).trace.any (isFailureReport "DownloadFailed") = true ∨
         (CheckNewFirmware b env).trace.any (isFailureReport "DeviceError") = true ∨
         (CheckNewFirmware b env).trace.any (isFailureReport "FileSizeNotMatch") = true))) ∧
    (∀ cv, fi.fwPackageCheckValue = some cv →
      env.downloadReturn = fi.fwSize → env.downloadReturn ≠ 0 → env.downloadReturn ≠ -1 →
      env.downloadReturn ≠ -2 → env.downloadChecksum % 65536 ≠ strtoul16 cv →
      (CheckNewFirmware b env).trace.any isDownloadEvent = true →
      (CheckNewFirmware b env).trace.any (isFailureReport "VerifyFailed") = true ∧
      (CheckNewFirmware b env).trace.any isApplyEvent = false) := by
  cases b with
  | false =>
    have heq : CheckNewFirmware false env = ⟨false, []⟩ := by simp [CheckNewFirmware]
    rw [heq]
    simp [isApplyEvent, isDownloadEvent]
  | true =>
    cases hv : fi.fwVersion with
    | none =>
      cases hu : fi.fwPackageURI with
      | none =>
        have heq : CheckNewFirmware true env = ⟨false, [.fetchFwInfo]⟩ := by
          simp [CheckNewFirmware, hfi, hv, hu]
        rw [heq]
        simp [isApplyEvent, isDownloadEvent]
      | some uri =>
        have heq : CheckNewFirmware true env = ⟨false, [.fetchFwInfo]⟩ := by
          simp [CheckNewFirmware, hfi, hv, hu]
        rw [heq]
        simp [isApplyEvent, isDownloadEvent]
    | some v =>
      cases hu : fi.fwPackageURI with
      | none =>
        have heq : CheckNewFirmware true env = ⟨false, [.fetchFwInfo]⟩ := by
          simp [CheckNewFirmware, hfi, hv, hu]
        rw [heq]
        simp [isApplyEvent, isDownloadEvent]
      | some uri =>
        cases hhttps : isHttpsURI uri with
        | false =>
          have heq : CheckNewFirmware true env =
              ⟨false, [.fetchFwInfo, .report (OTAUpdateFailed v "URINotHTTPS")]⟩ := by
            simp [CheckNewFirmware, hfi, hv, hu, hhttps]
          rw [heq]
          simp [isApplyEvent, isDownloadEvent]
        | true =>
          by_cases hcmp : env.fwVersionCompare ≤ 0
          · have heq : CheckNewFirmware true env = ⟨true, [.fetchFwInfo]⟩ := by
              simp [CheckNewFirmware, hfi, hv, hu, hhttps, hcmp]
            rw [heq]
            simp [isApplyEvent, isDownloadEvent]
          · rw [checkNewFirmware_eq_downloadAndApply env fi v uri hfi hv hu hhttps (by omega)]
            simp only [downloadAndApply]
            by_cases hA : (env.downloadReturn = 0 ∨ env.downloadReturn = -1)
            · rw [if_pos hA]
              refine ⟨fun h => absurd h (by simp [isApplyEvent]),
                fun hsm => ⟨by simp [isApplyEvent], fun _ => Or.inl ?_⟩,
                fun cv hcv hsz h0 h1 h2 hne hdl => (by omega : False).elim⟩
              simp [isFailureReport, OTAUpdateFailed, ReportOTAStatus,
                OTA_STATUS_ERROR, OTA_STATUS_DOWNLOADING]
            · rw [if_neg hA]
              by_cases hB : env.downloadReturn = -2
              · rw [if_pos hB]
                refine ⟨fun h => absurd h (by simp [isApplyEvent]),
                  fun hsm => ⟨by simp [isApplyEvent], fun _ => Or.inr (Or.inl ?_)⟩,
                  fun cv hcv hsz h0 h1 h2 hne hdl => (by omega : False).elim⟩
                simp [isFailureReport, OTAUpdateFailed, ReportOTAStatus,
                  OTA_STATUS_ERROR, OTA_STATUS_DOWNLOADING]
              · rw [if_neg hB]
                by_cases hS : env.downloadReturn = fi.fwSize
                · rw [if_neg (not_not_intro hS)]
                  cases hcv2 : fi.fwPackageCheckValue with
                  | none =>
                    exact ⟨fun _ => ⟨hS, fun cv h3 => absurd h3 (by simp)⟩,
                      fun hsm => absurd hS hsm,
                      fun cv h3 => absurd h3 (by simp)⟩
                  | some cv2 =>
                    by_cases hck : env.downloadChecksum % 65536 = strtoul16 cv2
                    · refine ⟨fun _ => ⟨hS, fun cv h3 => ?_⟩, fun hsm => absurd hS hsm,
                        fun cv h3 hsz h0 h1 h2 hne hdl => ?_⟩
                      · obtain rfl := Option.some.inj h3
                        exact hck
                      · obtain rfl := Option.some.inj h3
                        exact absurd hck hne
                    · rw [if_pos (by simp [hck])]
                      refine ⟨fun h => absurd h (by simp [isApplyEvent]),
                        fun hsm => absurd hS hsm,
                        fun cv h3 hsz h0 h1 h2 hne hdl => ⟨?_, by simp [isApplyEvent]⟩⟩
                      simp [isFailureReport, OTAUpdateFailed, ReportOTAStatus,
                        OTA_STATUS_ERROR, OTA_STATUS_DOWNLOADING]
                · rw [if_pos hS]
                  refine ⟨fun h => absurd h (by simp [isApplyEvent]),
                    fun hsm => ⟨by simp [isApplyEvent], fun _ => Or.inr (Or.inr ?_)⟩,
                    fun cv hcv hsz h0 h1 h2 hne hdl => absurd hsz hS⟩
                  simp [isFailureReport, OTAUpdateFailed, ReportOTAStatus,
                    OTA_STATUS_ERROR, OTA_STATUS_DOWNLOADING]

/-- Witness for C2: the success environment `envOK` satisfies the guard
conclusions, and the size-mismatch environment never calls the applier. -/
theorem applier_guarded_witness :
    (envOK.downloadReturn = fiOK.fwSize ∧
      ∀ cv, fiOK.fwPackageCheckValue = some cv →
        envOK.downloadChecksum % 65536 = strtoul16 cv) ∧
    (CheckNewFirmware true envSizeMismatch).trace.any isApplyEvent = false :=
  ⟨(applier_guarded true envOK fiOK rfl).1 (by decide),
   ((applier_guarded true envSizeMismatch fiSize120 rfl).2.1 (by decide)).1⟩

/-- C1 counterexample: a candidate whose metadata has both a version and a
package location but a non-https URI still clears `enableOTA` permanently —
`OTAUpdateFailed` disables OTA on every reported failure, not only on
malformed metadata. -/
theorem enable_cleared_counterexample :
    fiBadUri.fwVersion ≠ none ∧ fiBadUri.fwPackageURI ≠ none ∧
    (CheckNewFirmware true envBadUri).trace.any (isFailureReport "URINotHTTPS") = true ∧
    (CheckNewFirmware true envBadUri).enableOTA = false := by
  decide

/-- C1 amended: on a tick that starts enabled, `enableOTA` ends up false iff
the fetched metadata lacks a version or a package location, or the tick
emits an error-status report (`URINotHTTPS`, `DownloadFailed`, `DeviceError`,
`FileSizeNotMatch`, `VerifyFailed` or `ApplyFirmwareFailed`): every reported
failure is permanent, not just malformed metadata. -/
theorem enable_cleared_iff_failure (env : Env) :
    (CheckNewFirmware true env).enableOTA = false ↔
      ((∃ fi, env.fwInfo = some fi ∧ (fi.fwVersion = none ∨ fi.fwPackageURI = none)) ∨
       (CheckNewFirmware true env).trace.any isErrorReport = true) := by
  cases hfi : env.fwInfo with
  | none =>
    have heq : CheckNewFirmware true env = ⟨true, [.fetchFwInfo]⟩ := by
      simp [CheckNewFirmware, hfi]
    rw [heq]
    simp [isErrorReport]
  | some fi =>
    cases hv : fi.fwVersion with
    | none =>
      have heq : CheckNewFirmware true env = ⟨false, [.fetchFwInfo]⟩ := by
        simp [CheckNewFirmware, hfi, hv]
      rw [heq]
      simp [isErrorReport]
      exact Or.inl hv
    | some v =>
      cases hu : fi.fwPackageURI with
      | none =>
        have heq : CheckNewFirmware true env = ⟨false, [.fetchFwInfo]⟩ := by
          simp [CheckNewFirmware, hfi, hv, hu]
        rw [heq]
        simp [isErrorReport]
        exact Or.inr hu
      | some uri =>
        cases hhttps : isHttpsURI uri with
        | false =>
          have heq : CheckNewFirmware true env =
              ⟨false, [.fetchFwInfo, .report (OTAUpdateFailed v "URINotHTTPS")]⟩ := by
            simp [CheckNewFirmware, hfi, hv, hu, hhttps]
          rw [heq]
          simp [isErrorReport, OTAUpdateFailed, ReportOTAStatus, OTA_STATUS_ERROR]
        | true =>
          by_cases hcmp : env.fwVersionCompare ≤ 0
          · have heq : CheckNewFirmware true env = ⟨true, [.fetchFwInfo]⟩ := by
              simp [CheckNewFirmware, hfi, hv, hu, hhttps, hcmp]
            rw [heq]
            simp [isErrorReport, hv, hu]
          · rw [checkNewFirmware_eq_downloadAndApply env fi v uri hfi hv hu hhttps (by omega)]
            simp only [downloadAndApply]
            split_ifs <;>
              simp [isErrorReport, OTAUpdateFailed, ReportOTAStatus, OTA_STATUS_ERROR,
                OTA_STATUS_DOWNLOADING, OTA_STATUS_APPLYING, hv, hu]

end FirmwareOTA
